import Mathlib

/-!
Verification of the VeriFYD AI-video-detection core against its design
specification.

The development shallowly embeds the numeric and control-flow content of
`detection.py`, `detector.py`, `gpt_vision.py` and `external_detector.py`.
Frames are abstract values of a type `α`; the per-frame OpenCV / NumPy
measurements (Laplacian variance, FFT ratios, Canny density, ...) are
irrational-valued floating-point computations, so they are passed in as
explicit function parameters of type `α → ℚ` (single-frame signals) or
`α → α → ℚ` (pair-of-frames signals).  Everything downstream of those
measurements — sampling loops, aggregation (means, population variances),
length guards, bucket-ladder scoring, clamping, labeling and the error
branches — is embedded exactly, over `ℚ` and `ℤ`.
-/

namespace Verifyd

/-- Integer clamp, as in `detection.py` `clamp` and the
`max(0.0, min(100.0, ai_score))` line of `detector.py`. -/
def clampZ (lo hi v : ℤ) : ℤ := max lo (min hi v)

/-- Mean of a list of rationals (model of `np.mean` on exact inputs);
division by zero in `ℚ` yields `0`, callers guard emptiness as the source does. -/
def meanQ (l : List ℚ) : ℚ := l.sum / (l.length : ℚ)

/-- Population variance of a list of rationals (model of `np.var`). -/
def varQ (l : List ℚ) : ℚ := meanQ (l.map (fun x => (x - meanQ l) ^ 2))

/-- Values of a two-argument measurement on consecutive elements of a list:
the stream produced by the `if prev_gray is not None: ...` pattern. -/
def pairwise (f : α → α → ℚ) : List α → List ℚ
  | [] => []
  | [_] => []
  | a :: b :: t => f a b :: pairwise f (b :: t)

/-- Last `n` elements of a list: the rolling `gray_buffer` that keeps the
most recent 10 sampled frames (`gray_buffer.pop(0)` once length exceeds 10). -/
def lastN (n : ℕ) (l : List α) : List α := l.drop (l.length - n)

theorem pairwise_length (f : α → α → ℚ) (l : List α) :
    (pairwise f l).length = l.length - 1 := by
  induction l with
  | nil => simp [pairwise]
  | cons a t ih =>
    cases t with
    | nil => simp [pairwise]
    | cons b u => simpa [pairwise] using ih

theorem lastN_length (n : ℕ) (l : List α) :
    (lastN n l).length = min l.length n := by
  simp [lastN]
  omega

theorem clampZ_bounds (v : ℤ) : 0 ≤ clampZ 0 100 v ∧ clampZ 0 100 v ≤ 100 := by
  unfold clampZ
  constructor
  · exact le_max_left _ _
  · exact max_le (by norm_num) (min_le_left _ _)

end Verifyd

namespace Detector

open Verifyd

/-- Sampling loop of `detect_ai` (`detector.py`): read frames sequentially,
increment `frame_count`, skip unless `frame_count % 5 == 0`, break once
`samples >= 60`, otherwise keep the frame and increment `samples`. -/
def sampleLoop : List α → ℕ → ℕ → List α
  | [], _, _ => []
  | f :: rest, count, samples =>
    if (count + 1) % 5 ≠ 0 then sampleLoop rest (count + 1) samples
    else if 60 ≤ samples then []
    else f :: sampleLoop rest (count + 1) (samples + 1)

/-- The frames `detect_ai` actually analyzes (loop entered with
`frame_count = 0`, `samples = 0`). -/
def sampledD (v : List α) : List α := sampleLoop v 0 0

theorem sampleLoop_eq (v : List α) (c s : ℕ) :
    sampleLoop v c s =
      ((((v.enumFrom c).filter fun p => (p.1 + 1) % 5 == 0).map Prod.snd).take (60 - s)) := by
  induction v generalizing c s with
  | nil => simp [sampleLoop]
  | cons f rest ih =>
    by_cases h5 : (c + 1) % 5 = 0
    · by_cases hs : 60 ≤ s
      · have : 60 - s = 0 := by omega
        simp [sampleLoop, h5, hs, List.enumFrom_cons, List.filter_cons, this]
      · have h1 : 60 - s = (60 - (s + 1)) + 1 := by omega
        rw [sampleLoop, if_neg (show ¬(c + 1) % 5 ≠ 0 by omega), if_neg hs, ih,
          List.enumFrom_cons, List.filter_cons, if_pos (by simp [h5]),
          List.map_cons, h1, List.take_succ_cons]
    · simp only [sampleLoop, List.enumFrom_cons, List.filter_cons]
      rw [if_pos h5, ih]
      simp [h5]

/-- Characterization used by the C6 theorem: the detector keeps every 5th
frame (1-based index divisible by 5), first 60 of them. -/
theorem sampledD_eq (v : List α) :
    sampledD v = (((v.enum.filter fun p => (p.1 + 1) % 5 == 0).map Prod.snd).take 60) := by
  simpa [sampledD, List.enum] using sampleLoop_eq v 0 0

theorem sampledD_length_le (v : List α) : (sampledD v).length ≤ 60 := by
  rw [sampledD_eq]
  exact le_trans (List.length_take_le _ _) (by simp)

theorem filter_enumFrom_sublist (p : ℕ × α → Bool) (v : List α) (c : ℕ) :
    (((v.enumFrom c).filter p).map Prod.snd).Sublist v := by
  induction v generalizing c with
  | nil => simp
  | cons f rest ih =>
    rw [List.enumFrom_cons, List.filter_cons]
    by_cases hp : p (c, f)
    · simpa [hp] using List.Sublist.cons₂ f (ih (c + 1))
    · simpa [hp] using List.Sublist.cons f (ih (c + 1))

theorem sampledD_sublist (v : List α) : (sampledD v).Sublist v := by
  rw [sampledD_eq]
  exact (List.take_sublist _ _).trans (filter_enumFrom_sublist _ v 0)

end Detector

namespace Detection

open Verifyd

/-- Frame budget of `run_detection` (`detection.py`): `fps` defaults to 30
when the reported rate is `<= 0`, and `max_frames = int(fps * 10)`
(10 seconds of source frames; Python `int` truncation = floor for
positive values). -/
def maxFramesOf (fps : ℚ) : ℕ :=
  (⌊(if fps ≤ 0 then 30 else fps) * 10⌋).toNat

/-- Sampling loop of `run_detection` (`detection.py`): `while frame_count <
max_frames`, read a frame, increment `frame_count`, keep it only when
`frame_count % 3 == 0`. -/
def sampleLoop2 (maxF : ℕ) : List α → ℕ → List α
  | [], _ => []
  | f :: rest, count =>
    if maxF ≤ count then []
    else if (count + 1) % 3 ≠ 0 then sampleLoop2 maxF rest (count + 1)
    else f :: sampleLoop2 maxF rest (count + 1)

/-- The frames `run_detection` actually analyzes. -/
def sampled2 (fps : ℚ) (v : List α) : List α := sampleLoop2 (maxFramesOf fps) v 0

theorem sampleLoop2_eq (maxF : ℕ) (v : List α) (c : ℕ) :
    sampleLoop2 maxF v c =
      ((((v.enumFrom c).take (maxF - c)).filter fun p => (p.1 + 1) % 3 == 0).map Prod.snd) := by
  induction v generalizing c with
  | nil => simp [sampleLoop2]
  | cons f rest ih =>
    by_cases hm : maxF ≤ c
    · have h0 : maxF - c = 0 := by omega
      simp [sampleLoop2, hm, h0]
    · have h1 : maxF - c = (maxF - (c + 1)) + 1 := by omega
      by_cases h3 : (c + 1) % 3 = 0
      · rw [sampleLoop2, if_neg hm, if_neg (show ¬(c + 1) % 3 ≠ 0 by omega), ih,
          List.enumFrom_cons, h1, List.take_succ_cons, List.filter_cons,
          if_pos (by simp [h3]), List.map_cons]
      · rw [sampleLoop2, if_neg hm, if_pos (by omega), ih,
          List.enumFrom_cons, h1, List.take_succ_cons, List.filter_cons,
          if_neg (by simp [h3])]

/-- Characterization used by the C6 theorem: `run_detection` keeps every 3rd
frame (1-based index divisible by 3) among the first `max_frames` frames
of the source. -/
theorem sampled2_eq (fps : ℚ) (v : List α) :
    sampled2 fps v =
      (((v.enum.take (maxFramesOf fps)).filter fun p => (p.1 + 1) % 3 == 0).map Prod.snd) := by
  simpa [sampled2, List.enum] using sampleLoop2_eq (maxFramesOf fps) v 0

theorem sampled2_sublist (fps : ℚ) (v : List α) : (sampled2 fps v).Sublist v := by
  rw [sampled2_eq]
  have h1 : ((v.enum.take (maxFramesOf fps)).filter
      fun p => (p.1 + 1) % 3 == 0).Sublist (v.enum.filter fun p => (p.1 + 1) % 3 == 0) :=
    (List.take_sublist _ _).filter _
  exact (h1.map Prod.snd).trans (Detector.filter_enumFrom_sublist _ v 0)

end Detection

namespace Detector

open Verifyd

/-- Aggregated signal vector of `detect_ai` (`detector.py` lines 320-335):
one scalar per signal plus the list lengths that the scoring ladders
inspect (`len(motion_scores)`, `len(temporal_diffs)`,
`len(flow_regularity_scores)`, `len(gray_buffer)`). -/
structure Sig where
  noise : ℚ
  freq : ℚ
  edge : ℚ
  dct : ℚ
  grad : ℚ
  tex : ℚ
  color : ℚ
  sat : ℚ
  motion : ℚ
  motionVar : ℚ
  nMotion : ℕ
  jitter : ℚ
  nJitter : ℕ
  flowVar : ℚ
  nFlow : ℕ
  flicker : ℚ
  residual : ℚ
  nBuffer : ℕ
  deriving DecidableEq

/-- Signal 1 ladder of `detect_ai` (sensor noise). -/
def noiseAdj (g : Sig) : ℤ :=
  if g.noise < 80 then 18
  else if g.noise < 200 then 8
  else if g.noise > 600 then -15
  else if g.noise > 350 then -7
  else 0

/-- Signal 2 ladder of `detect_ai` (high-frequency content). -/
def freqAdj (g : Sig) : ℤ :=
  if g.freq < 0.55 then 14
  else if g.freq < 0.65 then 6
  else if g.freq > 0.82 then -12
  else if g.freq > 0.75 then -5
  else 0

/-- Signal 3 ladder of `detect_ai` (edge density). -/
def edgeAdj (g : Sig) : ℤ :=
  if g.edge < 8 then 10
  else if g.edge < 15 then 4
  else if g.edge > 35 then -8
  else 0

/-- Signal 4 ladder of `detect_ai` (DCT grid artifact). -/
def dctAdj (g : Sig) : ℤ :=
  if g.dct > 1.8 then 12
  else if g.dct > 1.4 then 6
  else if g.dct < 0.9 then -6
  else 0

/-- Signal 5 ladder of `detect_ai` (gradient orientation entropy). -/
def gradAdj (g : Sig) : ℤ :=
  if g.grad < 4 then 10
  else if g.grad < 4.5 then 4
  else if g.grad > 5 then -8
  else 0

/-- Signal 6 ladder of `detect_ai` (local texture entropy). -/
def texAdj (g : Sig) : ℤ :=
  if g.tex < 50 then 10
  else if g.tex < 120 then 4
  else if g.tex > 400 then -8
  else 0

/-- Signal 7 ladder of `detect_ai` (color channel noise correlation). -/
def colorAdj (g : Sig) : ℤ :=
  if g.color > 0.75 then 8
  else if g.color > 0.60 then 3
  else if g.color < 0.35 then -6
  else 0

/-- Signal 8, first `if` of `detect_ai` (mean motion magnitude). -/
def motionAdj (g : Sig) : ℤ :=
  if g.motion < 2 then 8 else 0

/-- Signal 8, second `if` of `detect_ai` (motion variance, guarded by
`len(motion_scores) > 3`). -/
def motionVarAdj (g : Sig) : ℤ :=
  if g.motionVar < 0.5 ∧ 3 < g.nMotion then 8 else 0

/-- Signal 9 ladder of `detect_ai` (histogram temporal stability). -/
def jitterAdj (g : Sig) : ℤ :=
  if g.jitter < 0.008 ∧ 3 < g.nJitter then 8
  else if g.jitter > 0.06 then -8
  else 0

/-- Signal 10 ladder of `detect_ai` (optical flow spatial variance, whole
ladder guarded by `len(flow_regularity_scores) > 3`). -/
def flowAdj (g : Sig) : ℤ :=
  if 3 < g.nFlow then
    if g.flowVar < 5 then 8
    else if g.flowVar < 15 then 3
    else if g.flowVar > 200 then -6
    else 0
  else 0

/-- Signal 11 ladder of `detect_ai` (pixel-wise temporal flicker). -/
def flickerAdj (g : Sig) : ℤ :=
  if g.flicker > 2.5 then 6
  else if g.flicker < 0.3 ∧ 5 ≤ g.nBuffer then 4
  else 0

/-- Signal 12 ladder of `detect_ai` (inter-frame residual
variance-of-variance). -/
def residualAdj (g : Sig) : ℤ :=
  if g.residual < 100 ∧ 5 ≤ g.nBuffer then 5
  else if g.residual > 50000 then -5
  else 0

/-- Scoring section of `detect_ai` (`detector.py` lines 354-472): start from
`ai_score = 50.0`, apply the twelve ladders by successive `+=`, clamp once
at the end with `max(0.0, min(100.0, ai_score))`, return
`int(round(ai_score))`.  All deltas are integers, so the float value is
integer-valued throughout and the final round is the identity; the score is
modelled in `ℤ`. -/
def detectAiScore (g : Sig) : ℤ :=
  clampZ 0 100 (50 + noiseAdj g + freqAdj g + edgeAdj g + dctAdj g + gradAdj g
    + texAdj g + colorAdj g + motionAdj g + motionVarAdj g + jitterAdj g
    + flowAdj g + flickerAdj g + residualAdj g)

/-- Guard of `_temporal_pixel_flicker` (`detector.py` lines 193-207): fewer
than 3 frames in the window gives `0.0`; the NumPy body (coefficient of
variation of the per-pixel temporal standard deviations, which involves
square roots) is abstracted as the parameter `body`. -/
def temporalPixelFlicker (body : List α → ℚ) (frames : List α) : ℚ :=
  if frames.length < 3 then 0 else body frames

/-- Guard and body of `_inter_frame_residual_consistency` (`detector.py`
lines 210-224): fewer than 4 frames gives `0.0`, otherwise the variance of
the per-consecutive-pair difference variances; the per-pair measurement
`np.var(cv2.absdiff(...))` is the parameter `dv`. -/
def interFrameResidualConsistency (dv : α → α → ℚ) (frames : List α) : ℚ :=
  if frames.length < 4 then 0 else varQ (pairwise dv frames)

/-- Single-frame measurement bundle of `detect_ai`: the eight spatial
extractors applied to each sampled frame. -/
structure FrameFns (α : Type) where
  noiseF : α → ℚ
  freqF : α → ℚ
  edgeF : α → ℚ
  dctF : α → ℚ
  gradF : α → ℚ
  texF : α → ℚ
  colorF : α → ℚ
  satF : α → ℚ

/-- Pair-of-frames measurement bundle of `detect_ai`: mean absolute frame
difference, histogram L1 difference, optical-flow magnitude variance, and
the per-pair difference variance of the residual-consistency signal. -/
structure PairFns (α : Type) where
  mdiff : α → α → ℚ
  hdiff : α → α → ℚ
  flowF : α → α → ℚ
  dv : α → α → ℚ

/-- Aggregation section of `detect_ai` (`detector.py` lines 320-335) applied
to the sampled frame list: means of the spatial per-frame scores, guarded
means/variances of the pair streams, and the two rolling-buffer signals over
the last 10 sampled frames. -/
def aggregateD (F : FrameFns α) (P : PairFns α) (flickBody : List α → ℚ)
    (smp : List α) : Sig :=
  let mv := pairwise P.mdiff smp
  let td := pairwise P.hdiff smp
  let fl := pairwise P.flowF smp
  let buf := lastN 10 smp
  { noise := meanQ (smp.map F.noiseF)
    freq := meanQ (smp.map F.freqF)
    edge := meanQ (smp.map F.edgeF)
    dct := meanQ (smp.map F.dctF)
    grad := meanQ (smp.map F.gradF)
    tex := meanQ (smp.map F.texF)
    color := meanQ (smp.map F.colorF)
    sat := meanQ (smp.map F.satF)
    motion := if mv.isEmpty then 0 else meanQ mv
    motionVar := if 1 < mv.length then varQ mv else 0
    nMotion := mv.length
    jitter := if td.isEmpty then 0 else meanQ td
    nJitter := td.length
    flowVar := if fl.isEmpty then 0 else meanQ fl
    nFlow := fl.length
    flicker := temporalPixelFlicker flickBody buf
    residual := interFrameResidualConsistency P.dv buf
    nBuffer := buf.length }

/-- Top level of `detect_ai` (`detector.py` lines 231-472): `50` when the
capture cannot be opened, `50` when no frames were sampled
(`if not noise_scores`), otherwise the bucket-ladder score of the
aggregated signal vector. -/
def detectAi (opened : Bool) (F : FrameFns α) (P : PairFns α)
    (flickBody : List α → ℚ) (v : List α) : ℤ :=
  if !opened then 50
  else
    let smp := sampledD v
    if smp.isEmpty then 50
    else detectAiScore (aggregateD F P flickBody smp)

end Detector

namespace Detector

open Verifyd

/-- Spec-side representation of one scoring bucket: a predicate on the
aggregated signal vector together with the delta it contributes
(spec 4.5: "an ordered table of (predicate, delta)"). -/
def Bucket : Type := (Sig → Bool) × ℤ

/-- Spec-side bucket-ladder evaluation: the delta of the first bucket whose
predicate matches, `0` when none matches. -/
def firstMatch : List Bucket → Sig → ℤ
  | [], _ => 0
  | (p, d) :: rest, g => if p g then d else firstMatch rest g

/-- Spec-shaped bucket table for the sensor-noise signal. -/
def noiseTable : List Bucket :=
  [(fun g => g.noise < 80, 18), (fun g => g.noise < 200, 8),
   (fun g => g.noise > 600, -15), (fun g => g.noise > 350, -7)]

/-- Spec-shaped bucket table for the high-frequency signal. -/
def freqTable : List Bucket :=
  [(fun g => g.freq < 0.55, 14), (fun g => g.freq < 0.65, 6),
   (fun g => g.freq > 0.82, -12), (fun g => g.freq > 0.75, -5)]

/-- Spec-shaped bucket table for the edge-density signal. -/
def edgeTable : List Bucket :=
  [(fun g => g.edge < 8, 10), (fun g => g.edge < 15, 4), (fun g => g.edge > 35, -8)]

/-- Spec-shaped bucket table for the DCT-grid signal. -/
def dctTable : List Bucket :=
  [(fun g => g.dct > 1.8, 12), (fun g => g.dct > 1.4, 6), (fun g => g.dct < 0.9, -6)]

/-- Spec-shaped bucket table for the gradient-orientation-entropy signal. -/
def gradTable : List Bucket :=
  [(fun g => g.grad < 4, 10), (fun g => g.grad < 4.5, 4), (fun g => g.grad > 5, -8)]

/-- Spec-shaped bucket table for the local-texture-entropy signal. -/
def texTable : List Bucket :=
  [(fun g => g.tex < 50, 10), (fun g => g.tex < 120, 4), (fun g => g.tex > 400, -8)]

/-- Spec-shaped bucket table for the color-correlation signal. -/
def colorTable : List Bucket :=
  [(fun g => g.color > 0.75, 8), (fun g => g.color > 0.60, 3),
   (fun g => g.color < 0.35, -6)]

/-- Spec-shaped bucket table for the motion-magnitude signal. -/
def motionTable : List Bucket := [(fun g => g.motion < 2, 8)]

/-- Spec-shaped bucket table for the motion-variance signal (the sample-count
guard is part of the bucket predicate). -/
def motionVarTable : List Bucket :=
  [(fun g => g.motionVar < 0.5 && 3 < g.nMotion, 8)]

/-- Spec-shaped bucket table for the histogram-jitter signal. -/
def jitterTable : List Bucket :=
  [(fun g => g.jitter < 0.008 && 3 < g.nJitter, 8), (fun g => g.jitter > 0.06, -8)]

/-- Spec-shaped bucket table for the optical-flow-variance signal (the
`len(flow_regularity_scores) > 3` guard is part of every bucket predicate). -/
def flowTable : List Bucket :=
  [(fun g => 3 < g.nFlow && g.flowVar < 5, 8),
   (fun g => 3 < g.nFlow && g.flowVar < 15, 3),
   (fun g => 3 < g.nFlow && g.flowVar > 200, -6)]

/-- Spec-shaped bucket table for the pixel-flicker signal. -/
def flickerTable : List Bucket :=
  [(fun g => g.flicker > 2.5, 6), (fun g => g.flicker < 0.3 && 5 ≤ g.nBuffer, 4)]

/-- Spec-shaped bucket table for the residual variance-of-variance signal. -/
def residualTable : List Bucket :=
  [(fun g => g.residual < 100 && 5 ≤ g.nBuffer, 5), (fun g => g.residual > 50000, -5)]

theorem noiseAdj_eq_firstMatch (g : Sig) : noiseAdj g = firstMatch noiseTable g := by
  simp only [noiseAdj, noiseTable, firstMatch, decide_eq_true_eq]

theorem freqAdj_eq_firstMatch (g : Sig) : freqAdj g = firstMatch freqTable g := by
  simp only [freqAdj, freqTable, firstMatch, decide_eq_true_eq]

theorem edgeAdj_eq_firstMatch (g : Sig) : edgeAdj g = firstMatch edgeTable g := by
  simp only [edgeAdj, edgeTable, firstMatch, decide_eq_true_eq]

theorem dctAdj_eq_firstMatch (g : Sig) : dctAdj g = firstMatch dctTable g := by
  simp only [dctAdj, dctTable, firstMatch, decide_eq_true_eq]

theorem gradAdj_eq_firstMatch (g : Sig) : gradAdj g = firstMatch gradTable g := by
  simp only [gradAdj, gradTable, firstMatch, decide_eq_true_eq]

theorem texAdj_eq_firstMatch (g : Sig) : texAdj g = firstMatch texTable g := by
  simp only [texAdj, texTable, firstMatch, decide_eq_true_eq]

theorem colorAdj_eq_firstMatch (g : Sig) : colorAdj g = firstMatch colorTable g := by
  simp only [colorAdj, colorTable, firstMatch, decide_eq_true_eq]

theorem motionAdj_eq_firstMatch (g : Sig) : motionAdj g = firstMatch motionTable g := by
  simp only [motionAdj, motionTable, firstMatch, decide_eq_true_eq]

theorem motionVarAdj_eq_firstMatch (g : Sig) :
    motionVarAdj g = firstMatch motionVarTable g := by
  simp only [motionVarAdj, motionVarTable, firstMatch, Bool.and_eq_true, decide_eq_true_eq]

theorem jitterAdj_eq_firstMatch (g : Sig) : jitterAdj g = firstMatch jitterTable g := by
  simp only [jitterAdj, jitterTable, firstMatch, Bool.and_eq_true, decide_eq_true_eq]

theorem flowAdj_eq_firstMatch (g : Sig) : flowAdj g = firstMatch flowTable g := by
  simp only [flowAdj, flowTable, firstMatch, Bool.and_eq_true, decide_eq_true_eq]
  by_cases hn : 3 < g.nFlow <;> split_ifs <;> simp_all

theorem flickerAdj_eq_firstMatch (g : Sig) : flickerAdj g = firstMatch flickerTable g := by
  simp only [flickerAdj, flickerTable, firstMatch, Bool.and_eq_true, decide_eq_true_eq]

theorem residualAdj_eq_firstMatch (g : Sig) :
    residualAdj g = firstMatch residualTable g := by
  simp only [residualAdj, residualTable, firstMatch, Bool.and_eq_true, decide_eq_true_eq]

end Detector

namespace Detection

open Verifyd

/-- Noise ladder of `run_detection` (`detection.py` lines 138-143),
operating on the authenticity-flavoured score started at 70. -/
def noiseAdj2 (avgNoise : ℚ) : ℤ :=
  if avgNoise < 80 then -20
  else if avgNoise < 150 then -10
  else if avgNoise > 400 then 10
  else 0

/-- Motion-variance ladder of `run_detection` (lines 148-153). -/
def motionVarAdj2 (motionVar : ℚ) : ℤ :=
  if motionVar < 0.5 then -20
  else if motionVar < 2 then -10
  else 10

/-- Edge ladder of `run_detection` (lines 158-161). -/
def edgeAdj2 (avgEdge : ℚ) : ℤ :=
  if avgEdge < 8 then -15
  else if avgEdge > 25 then 5
  else 0

/-- Frequency ladder of `run_detection` (lines 166-169). -/
def freqAdj2 (avgFreq : ℚ) : ℤ :=
  if avgFreq < 0.55 then -15
  else if avgFreq > 0.75 then 5
  else 0

/-- Histogram-jitter ladder of `run_detection` (lines 174-177). -/
def histAdj2 (avgHist : ℚ) : ℤ :=
  if avgHist < 0.01 then -15
  else if avgHist > 0.05 then 5
  else 0

/-- Labeler of `run_detection` (`detection.py` lines 184-189): `score >= 85`
gives REAL, `score >= 60` gives UNDETERMINED, otherwise AI. -/
def labelOf (score : ℤ) : String :=
  if 85 ≤ score then "REAL"
  else if 60 ≤ score then "UNDETERMINED"
  else "AI"

/-- Single-frame measurement bundle of `run_detection`: Laplacian-variance
noise, Canny edge density, high-frequency FFT ratio. -/
structure FrameFns2 (α : Type) where
  noiseF : α → ℚ
  edgeF : α → ℚ
  freqF : α → ℚ

/-- Full `run_detection` (`detection.py` lines 20-193): `(50, "UNDETERMINED")`
when the capture cannot be opened and when no frame was analyzed
(`if not noise_vals`); otherwise sample every 3rd frame of the first
10 seconds, aggregate, score from a baseline of 70 through the five
ladders, clamp to `[0,100]` and label.  `mdiff`/`hdiff` are the
consecutive-frame mean-absolute-difference and histogram-L1-difference
measurements.  (The aggregated `avg_motion` is computed by the source but
never used by its scoring model, so it is omitted.) -/
def run_detection (opened : Bool) (fps : ℚ) (F : FrameFns2 α)
    (mdiff hdiff : α → α → ℚ) (v : List α) : ℤ × String :=
  if !opened then (50, "UNDETERMINED")
  else
    let smp := sampled2 fps v
    if smp.isEmpty then (50, "UNDETERMINED")
    else
      let avgNoise := meanQ (smp.map F.noiseF)
      let mv := pairwise mdiff smp
      let motionVar := if 1 < mv.length then varQ mv else 0
      let avgEdge := meanQ (smp.map F.edgeF)
      let avgFreq := meanQ (smp.map F.freqF)
      let hd := pairwise hdiff smp
      let avgHist := if hd.isEmpty then 0 else meanQ hd
      let score := clampZ 0 100 (70 + noiseAdj2 avgNoise + motionVarAdj2 motionVar
        + edgeAdj2 avgEdge + freqAdj2 avgFreq + histAdj2 avgHist)
      (score, labelOf score)

end Detection

namespace GptVision

open Verifyd

/-- Result shape of the `gpt_vision.py` functions: the Python dict with keys
`ai_probability`, `reasoning`, `flags`, and an `available` key that is
present only on some paths (modelled as an `Option`). -/
structure GptResult where
  ai_probability : ℤ
  reasoning : String
  flags : List String
  available : Option Bool
  deriving DecidableEq

/-- Outcome of the network/parse section of `analyze_frames_with_gpt`
(the `try` body): either a parsed `(ai_probability, reasoning, flags)`
triple or a raised exception carrying its message.  Non-200 HTTP responses
(after the 429 retries) and unparsable responses are `error` outcomes. -/
def HttpOutcome : Type := Except String (ℤ × String × List String)

/-- Model of `analyze_frames_with_gpt` (`gpt_vision.py` lines 83-212): the
missing-key and empty-frames early returns, the clamped/truncated success
path, and the `except Exception` handler that returns the placeholder
`{"ai_probability": 50, ...}`.  None of these dicts carries an
`available` key. -/
def analyze_frames_with_gpt (apiKeySet : Bool) (frames : List String)
    (outcome : HttpOutcome) : GptResult :=
  if !apiKeySet then ⟨50, "GPT analysis unavailable", [], none⟩
  else if frames.isEmpty then ⟨50, "No frames extracted", [], none⟩
  else
    match outcome with
    | .ok (p, reasoning, flags) =>
        ⟨clampZ 0 100 p, reasoning.take 500, (flags.map fun f => f.take 100).take 10, none⟩
    | .error e => ⟨50, "GPT analysis error: " ++ e.take 100, [], none⟩

/-- Model of `gpt_vision_score` (`gpt_vision.py` lines 218-233): explicit
`available=False` early returns for a missing key and for zero extracted
frames, and otherwise `result["available"] = True` stamped onto whatever
`analyze_frames_with_gpt` returned — including its exception placeholder. -/
def gpt_vision_score (apiKeySet : Bool) (frames : List String)
    (outcome : HttpOutcome) : GptResult :=
  if !apiKeySet then ⟨50, "GPT vision not configured", [], some false⟩
  else if frames.isEmpty then ⟨50, "Could not extract frames", [], some false⟩
  else
    let r := analyze_frames_with_gpt apiKeySet frames outcome
    { r with available := some true }

end GptVision

namespace External

open Verifyd

/-- Dynamically-typed Python value, enough to model the tuple returned by
`run_detection` and the unpacking in `external_detector.py`. -/
inductive PyVal where
  | int (z : ℤ)
  | str (s : String)
  deriving DecidableEq

/-- The tuple `run_detection` actually returns (`detection.py` line 193:
`return int(score), label`), as a Python tuple of dynamic values: it has
exactly two elements. -/
def runDetectionTuple (opened : Bool) (fps : ℚ) (F : Detection.FrameFns2 α)
    (mdiff hdiff : α → α → ℚ) (v : List α) : List PyVal :=
  let r := Detection.run_detection opened fps F mdiff hdiff v
  [.int r.1, .str r.2]

/-- Model of `external_ai_score` (`external_detector.py` lines 18-27): the
statement `authenticity, label, detail = run_detection(video_path)` succeeds
only when the returned tuple has exactly three elements, and then returns
`detail["ai_score"]`; any other arity raises `ValueError` (modelled as
`Except.error`). -/
def external_ai_score (opened : Bool) (fps : ℚ) (F : Detection.FrameFns2 α)
    (mdiff hdiff : α → α → ℚ) (v : List α) : Except String ℤ :=
  match runDetectionTuple opened fps F mdiff hdiff v with
  | [_authenticity, _label, detail] =>
      match detail with
      | .int z => .ok z
      | .str _ => .error "TypeError: string indices"
  | _ => .error "ValueError: not enough values to unpack (expected 3, got 2)"

end External

namespace Detector

open Verifyd

/-- Python `range(0, stop, step)` over naturals. -/
def pyRange (stop step : ℕ) : List ℕ :=
  (List.range ((stop + step - 1) / step)).map (· * step)

/-- Model of `_dct_grid_artifact` (`detector.py` lines 62-94): crop to whole
8x8 blocks, return `0.0` when no block fits, sum per-block border and
interior DCT energies over the block grid, return `0.0` when the interior
energy is below `1e-10`, else the ratio with the `1e-10` regularizer.  The
per-block energies `|dct[0,1:]| + |dct[1:,0]|` and `|dct[1:,1:]|` are cosine
transforms of the pixel block, abstracted as the parameters `blockBorder`
and `blockInterior` indexed by block position. -/
def dctGridArtifact (h w : ℕ) (blockBorder blockInterior : ℕ → ℕ → ℚ) : ℚ :=
  let hc := h / 8 * 8
  let wc := w / 8 * 8
  if hc = 0 ∨ wc = 0 then 0
  else
    let cells := (pyRange hc 8).flatMap fun r => (pyRange wc 8).map fun c => (r, c)
    let borderE := (cells.map fun rc => blockBorder rc.1 rc.2).sum
    let interiorE := (cells.map fun rc => blockInterior rc.1 rc.2).sum
    if interiorE < 1 / 10 ^ 10 then 0
    else borderE / (interiorE + 1 / 10 ^ 10)

/-- Model of `_local_texture_entropy` (`detector.py` lines 123-140): iterate
16x16 patches over `range(0, h-16, 16) x range(0, w-16, 16)`, collect the
per-patch Laplacian variances (abstracted as `patchVar`), return `0.0` when
no patch was collected, else their standard deviation (`np.std`, a square
root, abstracted as `stdFn`). -/
def localTextureEntropy (h w : ℕ) (patchVar : ℕ → ℕ → ℚ) (stdFn : List ℚ → ℚ) : ℚ :=
  let variances := (pyRange (h - 16) 16).flatMap fun r =>
    (pyRange (w - 16) 16).map fun c => patchVar r c
  if variances.isEmpty then 0 else stdFn variances

/-- Model of `_color_channel_noise_correlation` (`detector.py` lines
143-164) on the two noise-residual vectors: the source guard
`nb.std() < 1e-6 or nr.std() < 1e-6` is equivalently stated on the
population variances (`std < 1e-6` iff `var < 1e-12`, since `std` is the
nonnegative square root of `var`); when it fires the midpoint `0.5` is
returned, otherwise `1 - |corrcoef(nb, nr)|` where the Pearson coefficient
(whose denominator is `std(nb) * std(nr)`, a square root) is abstracted as
`corrFn`. -/
def colorChannelNoiseCorrelation (corrFn : List ℚ → List ℚ → ℚ)
    (nb nr : List ℚ) : ℚ :=
  if varQ nb < 1 / 10 ^ 12 ∨ varQ nr < 1 / 10 ^ 12 then 0.5
  else 1 - |corrFn nb nr|

end Detector

namespace Inst

/-- Concrete single-frame measurement bundle used by witnesses. -/
def cF : Detector.FrameFns Unit :=
  ⟨fun _ => 100, fun _ => 7 / 10, fun _ => 20, fun _ => 1, fun _ => 47 / 10,
   fun _ => 200, fun _ => 1 / 2, fun _ => 100⟩

/-- Concrete pair-of-frames measurement bundle used by witnesses. -/
def cP : Detector.PairFns Unit :=
  ⟨fun _ _ => 3, fun _ _ => 3 / 100, fun _ _ => 20, fun _ _ => 100⟩

/-- Concrete flicker body used by witnesses. -/
def cFlick : List Unit → ℚ := fun _ => 1

/-- Concrete measurement bundle for `run_detection` used by witnesses. -/
def cF2 : Detection.FrameFns2 Unit := ⟨fun _ => 100, fun _ => 20, fun _ => 7 / 10⟩

/-- Concrete consecutive-frame measurement used by witnesses. -/
def cD : Unit → Unit → ℚ := fun _ _ => 1

/-- Concrete per-block energy used by witnesses. -/
def cB : ℕ → ℕ → ℚ := fun _ _ => 0

/-- Concrete standard-deviation body used by witnesses. -/
def cStd : List ℚ → ℚ := fun _ => 0

/-- Concrete Pearson-correlation body used by witnesses. -/
def cCorr : List ℚ → List ℚ → ℚ := fun _ _ => 0

end Inst

/-- C3: for every aggregated signal vector, the primary scoring engine
(`detect_ai` in `detector.py`) produces exactly a neutral baseline of 50
plus, independently for each signal, the delta of the first matching bucket
of that signal's ordered bucket table; the per-signal deltas sum, and the
total is clamped to `[0,100]` only once, after all signals are applied. -/
theorem C3_primary_score_is_bucket_ladder_sum (g : Detector.Sig) :
    Detector.detectAiScore g =
      Verifyd.clampZ 0 100 (50
        + Detector.firstMatch Detector.noiseTable g
        + Detector.firstMatch Detector.freqTable g
        + Detector.firstMatch Detector.edgeTable g
        + Detector.firstMatch Detector.dctTable g
        + Detector.firstMatch Detector.gradTable g
        + Detector.firstMatch Detector.texTable g
        + Detector.firstMatch Detector.colorTable g
        + Detector.firstMatch Detector.motionTable g
        + Detector.firstMatch Detector.motionVarTable g
        + Detector.firstMatch Detector.jitterTable g
        + Detector.firstMatch Detector.flowTable g
        + Detector.firstMatch Detector.flickerTable g
        + Detector.firstMatch Detector.residualTable g) := by
  rw [Detector.detectAiScore, Detector.noiseAdj_eq_firstMatch,
    Detector.freqAdj_eq_firstMatch, Detector.edgeAdj_eq_firstMatch,
    Detector.dctAdj_eq_firstMatch, Detector.gradAdj_eq_firstMatch,
    Detector.texAdj_eq_firstMatch, Detector.colorAdj_eq_firstMatch,
    Detector.motionAdj_eq_firstMatch, Detector.motionVarAdj_eq_firstMatch,
    Detector.jitterAdj_eq_firstMatch, Detector.flowAdj_eq_firstMatch,
    Detector.flickerAdj_eq_firstMatch, Detector.residualAdj_eq_firstMatch]

/-- C4: the labeler of `run_detection` maps an authenticity score `s` in
`[0,100]` to REAL iff `s ≥ 85`, to UNDETERMINED iff `60 ≤ s < 85`, and to
AI iff `s < 60`; the boundary values resolve as documented
(85 gives REAL, 60 gives UNDETERMINED). -/
theorem C4_labeler_thresholds (s : ℤ) (h0 : 0 ≤ s) (h1 : s ≤ 100) :
    (Detection.labelOf s = "REAL" ↔ 85 ≤ s) ∧
    (Detection.labelOf s = "UNDETERMINED" ↔ 60 ≤ s ∧ s < 85) ∧
    (Detection.labelOf s = "AI" ↔ s < 60) ∧
    Detection.labelOf 85 = "REAL" ∧ Detection.labelOf 60 = "UNDETERMINED" := by
  unfold Detection.labelOf
  refine ⟨?_, ?_, ?_, by norm_num, by norm_num⟩ <;>
    split_ifs <;> simp_all <;> omega

/-- Witness for C4 at the boundary score 85. -/
theorem C4_labeler_thresholds_witness :
    (0:ℤ) ≤ 85 ∧ (85:ℤ) ≤ 100 ∧
    ((Detection.labelOf 85 = "REAL" ↔ (85:ℤ) ≤ 85) ∧
     (Detection.labelOf 85 = "UNDETERMINED" ↔ (60:ℤ) ≤ 85 ∧ (85:ℤ) < 85) ∧
     (Detection.labelOf 85 = "AI" ↔ (85:ℤ) < 60) ∧
     Detection.labelOf 85 = "REAL" ∧ Detection.labelOf 60 = "UNDETERMINED") :=
  ⟨by decide, by decide, C4_labeler_thresholds 85 (by decide) (by decide)⟩

/-- C5: whenever at least one frame was sampled (non-empty signal vector),
the score returned by `detect_ai` is an integer in `[0,100]`. -/
theorem C5_score_in_unit_range (F : Detector.FrameFns α) (P : Detector.PairFns α)
    (fb : List α → ℚ) (v : List α)
    (h : (Detector.sampledD v).isEmpty = false) :
    0 ≤ Detector.detectAi true F P fb v ∧ Detector.detectAi true F P fb v ≤ 100 := by
  unfold Detector.detectAi
  simp only [Bool.not_true, Bool.false_eq_true, if_false, h]
  exact Verifyd.clampZ_bounds _

/-- Witness for C5 on a 5-frame clip (which yields one sampled frame). -/
theorem C5_score_in_unit_range_witness :
    (Detector.sampledD (List.replicate 5 ())).isEmpty = false ∧
    (0 ≤ Detector.detectAi true Inst.cF Inst.cP Inst.cFlick (List.replicate 5 ()) ∧
     Detector.detectAi true Inst.cF Inst.cP Inst.cFlick (List.replicate 5 ()) ≤ 100) :=
  ⟨by decide, C5_score_in_unit_range Inst.cF Inst.cP Inst.cFlick _ (by decide)⟩

/-- C6: both frame samplers read sequentially and keep order (`Sublist`):
`detect_ai` keeps every 5th frame and stops at 60 samples (so it analyzes at
most 60 frames), `run_detection` keeps every 3rd frame among the first
`max_frames = int(fps * 10)` source frames (10 seconds), with the frame
rate defaulting to 30 whenever the reported rate is `≤ 0`. -/
theorem C6_frame_sampler_policy (v : List α) (fps : ℚ) (w : List β) :
    Detector.sampledD v =
      (((v.enum.filter fun p => (p.1 + 1) % 5 == 0).map Prod.snd).take 60) ∧
    (Detector.sampledD v).length ≤ 60 ∧
    (Detector.sampledD v).Sublist v ∧
    Detection.sampled2 fps w =
      (((w.enum.take (Detection.maxFramesOf fps)).filter
        fun p => (p.1 + 1) % 3 == 0).map Prod.snd) ∧
    (Detection.sampled2 fps w).Sublist w ∧
    (0 < fps → Detection.maxFramesOf fps = (⌊fps * 10⌋).toNat) ∧
    (fps ≤ 0 → Detection.maxFramesOf fps = 300) :=
  ⟨Detector.sampledD_eq v, Detector.sampledD_length_le v, Detector.sampledD_sublist v,
   Detection.sampled2_eq fps w, Detection.sampled2_sublist fps w,
   fun h => by simp [Detection.maxFramesOf, not_le.mpr h, le_of_lt h],
   fun h => by rw [Detection.maxFramesOf, if_pos h]; norm_num; omega⟩

/-- Witness for C6 at a 7-frame clip, a positive rate and a non-positive
rate (the last two conjuncts discharge the two rate hypotheses). -/
theorem C6_frame_sampler_policy_witness :
    Detector.sampledD (List.replicate 7 ()) =
      ((((List.replicate 7 ()).enum.filter
        fun p => (p.1 + 1) % 5 == 0).map Prod.snd).take 60) ∧
    (0:ℚ) < 24 ∧ Detection.maxFramesOf 24 = (⌊(24:ℚ) * 10⌋).toNat ∧
    (0:ℚ) ≤ 0 ∧ Detection.maxFramesOf 0 = 300 :=
  ⟨(C6_frame_sampler_policy (List.replicate 7 ()) 24 ([] : List Unit)).1,
   by decide,
   (C6_frame_sampler_policy (List.replicate 7 ()) 24 ([] : List Unit)).2.2.2.2.2.1
     (by norm_num),
   le_refl 0,
   (C6_frame_sampler_policy (List.replicate 7 ()) (0:ℚ) ([] : List Unit)).2.2.2.2.2.2
     (le_refl 0)⟩

/-- C7: every temporal signal whose sampled-frame requirement is not met
aggregates to exactly `0.0` — motion, optical flow and histogram jitter
need 2 frames, pixel flicker needs 3, residual consistency needs 4 — and a
1-frame clip yields all of them at `0.0`.  The aggregation function is
total, so the analysis completes without raising. -/
theorem C7_temporal_signal_defaults (F : Detector.FrameFns α)
    (P : Detector.PairFns α) (fb : List α → ℚ) (smp : List α) :
    (smp.length < 2 → (Detector.aggregateD F P fb smp).motion = 0 ∧
      (Detector.aggregateD F P fb smp).flowVar = 0 ∧
      (Detector.aggregateD F P fb smp).jitter = 0) ∧
    (smp.length < 3 → (Detector.aggregateD F P fb smp).flicker = 0) ∧
    (smp.length < 4 → (Detector.aggregateD F P fb smp).residual = 0) ∧
    (smp.length = 1 → (Detector.aggregateD F P fb smp).motion = 0 ∧
      (Detector.aggregateD F P fb smp).motionVar = 0 ∧
      (Detector.aggregateD F P fb smp).flowVar = 0 ∧
      (Detector.aggregateD F P fb smp).jitter = 0 ∧
      (Detector.aggregateD F P fb smp).flicker = 0 ∧
      (Detector.aggregateD F P fb smp).residual = 0) := by
  have hmv := Verifyd.pairwise_length P.mdiff smp
  have hfl := Verifyd.pairwise_length P.flowF smp
  have htd := Verifyd.pairwise_length P.hdiff smp
  have hbuf := Verifyd.lastN_length 10 smp
  refine ⟨fun h2 => ?_, fun h3 => ?_, fun h4 => ?_, fun h1 => ?_⟩
  · have e1 : (Verifyd.pairwise P.mdiff smp).isEmpty = true := by
      rw [List.isEmpty_iff_length_eq_zero]; omega
    have e2 : (Verifyd.pairwise P.flowF smp).isEmpty = true := by
      rw [List.isEmpty_iff_length_eq_zero]; omega
    have e3 : (Verifyd.pairwise P.hdiff smp).isEmpty = true := by
      rw [List.isEmpty_iff_length_eq_zero]; omega
    simp [Detector.aggregateD, e1, e2, e3]
  · have : (Verifyd.lastN 10 smp).length < 3 := by omega
    simp [Detector.aggregateD, Detector.temporalPixelFlicker, this]
  · have : (Verifyd.lastN 10 smp).length < 4 := by omega
    simp [Detector.aggregateD, Detector.interFrameResidualConsistency, this]
  · have e1 : (Verifyd.pairwise P.mdiff smp).isEmpty = true := by
      rw [List.isEmpty_iff_length_eq_zero]; omega
    have e2 : (Verifyd.pairwise P.flowF smp).isEmpty = true := by
      rw [List.isEmpty_iff_length_eq_zero]; omega
    have e3 : (Verifyd.pairwise P.hdiff smp).isEmpty = true := by
      rw [List.isEmpty_iff_length_eq_zero]; omega
    have l1 : ¬(1 < (Verifyd.pairwise P.mdiff smp).length) := by omega
    have b3 : (Verifyd.lastN 10 smp).length < 3 := by omega
    have b4 : (Verifyd.lastN 10 smp).length < 4 := by omega
    simp [Detector.aggregateD, Detector.temporalPixelFlicker,
      Detector.interFrameResidualConsistency, e1, e2, e3, l1, b3, b4]

/-- Witness for C7 on a 1-frame clip. -/
theorem C7_temporal_signal_defaults_witness :
    ([()] : List Unit).length = 1 ∧
    ((Detector.aggregateD Inst.cF Inst.cP Inst.cFlick [()]).motion = 0 ∧
     (Detector.aggregateD Inst.cF Inst.cP Inst.cFlick [()]).motionVar = 0 ∧
     (Detector.aggregateD Inst.cF Inst.cP Inst.cFlick [()]).flowVar = 0 ∧
     (Detector.aggregateD Inst.cF Inst.cP Inst.cFlick [()]).jitter = 0 ∧
     (Detector.aggregateD Inst.cF Inst.cP Inst.cFlick [()]).flicker = 0 ∧
     (Detector.aggregateD Inst.cF Inst.cP Inst.cFlick [()]).residual = 0) :=
  ⟨rfl, (C7_temporal_signal_defaults Inst.cF Inst.cP Inst.cFlick [()]).2.2.2 rfl⟩

/-- C9: `run_detection` is total over its decoded inputs: it returns a pair
whose score is in `[0,100]` and whose label is one of REAL, UNDETERMINED,
AI; an unopenable file and a clip with zero analyzed frames both return
exactly `(50, "UNDETERMINED")`. -/
theorem C9_run_detection_total (opened : Bool) (fps : ℚ)
    (F : Detection.FrameFns2 α) (mdiff hdiff : α → α → ℚ) (v : List α) :
    0 ≤ (Detection.run_detection opened fps F mdiff hdiff v).1 ∧
    (Detection.run_detection opened fps F mdiff hdiff v).1 ≤ 100 ∧
    ((Detection.run_detection opened fps F mdiff hdiff v).2 = "REAL" ∨
     (Detection.run_detection opened fps F mdiff hdiff v).2 = "UNDETERMINED" ∨
     (Detection.run_detection opened fps F mdiff hdiff v).2 = "AI") ∧
    (opened = false →
      Detection.run_detection opened fps F mdiff hdiff v = (50, "UNDETERMINED")) ∧
    ((Detection.sampled2 fps v).isEmpty = true →
      Detection.run_detection opened fps F mdiff hdiff v = (50, "UNDETERMINED")) := by
  unfold Detection.run_detection
  cases opened with
  | false => simp
  | true =>
    simp only [Bool.not_true, Bool.false_eq_true, if_false, Bool.true_eq_false,
      false_implies, true_and]
    by_cases hemp : (Detection.sampled2 fps v).isEmpty = true
    · simp [hemp]
    · simp only [hemp, if_false]
      refine ⟨(Verifyd.clampZ_bounds _).1, (Verifyd.clampZ_bounds _).2, ?_, by simp [hemp]⟩
      unfold Detection.labelOf
      split_ifs <;> simp

/-- Witness for C9 at an unopenable capture. -/
theorem C9_run_detection_total_witness :
    Detection.run_detection false 30 Inst.cF2 Inst.cD Inst.cD ([] : List Unit) =
      (50, "UNDETERMINED") :=
  (C9_run_detection_total false 30 Inst.cF2 Inst.cD Inst.cD []).2.2.2.1 rfl

/-- C1 (evaluation of the code at the failing inputs): both top-level
analyses substitute the neutral values for a capture that cannot be opened
and for a capture that yields zero decodable frames — `run_detection`
returns the pair `(50, "UNDETERMINED")` and `detect_ai` returns the plain
score `50`, neither of which is a `CannotDecode`-style failure
distinguishable from a genuine numeric score. -/
theorem C1_cannot_decode_scored_neutral :
    Detection.run_detection false 30 Inst.cF2 Inst.cD Inst.cD ([] : List Unit) =
      (50, "UNDETERMINED") ∧
    Detection.run_detection true 30 Inst.cF2 Inst.cD Inst.cD ([] : List Unit) =
      (50, "UNDETERMINED") ∧
    Detector.detectAi false Inst.cF Inst.cP Inst.cFlick ([] : List Unit) = 50 ∧
    Detector.detectAi true Inst.cF Inst.cP Inst.cFlick ([] : List Unit) = 50 := by
  refine ⟨rfl, ?_, rfl, rfl⟩
  rfl

/-- C2 (evaluation of the code at the failing input): when the API key is
set and frames were extracted but the HTTP request fails (non-200 after the
retries) or the response is unparsable, the exception handler of
`analyze_frames_with_gpt` produces the placeholder probability 50 and
`gpt_vision_score` stamps `available = True` onto it — the failed engine is
reported as a genuine measurement of 50, not excluded with
`available = False`.  The missing-key and zero-frames paths, by contrast,
do return `available = False` as the claim states. -/
theorem C2_gpt_failure_marked_available :
    (GptVision.gpt_vision_score true ["frame"]
      (Except.error "HTTP Error 500")).available = some true ∧
    (GptVision.gpt_vision_score true ["frame"]
      (Except.error "HTTP Error 500")).ai_probability = 50 ∧
    (GptVision.gpt_vision_score false []
      (Except.ok (0, "", []))).available = some false ∧
    (GptVision.gpt_vision_score true []
      (Except.ok (0, "", []))).available = some false := by
  refine ⟨rfl, rfl, rfl, rfl⟩

/-- C8: the spatial extractors substitute neutral defaults instead of
producing NaN: `_dct_grid_artifact` returns `0.0` when the frame has no
whole 8x8 block, `_local_texture_entropy` returns `0.0` when no 16x16 patch
fits, and `_color_channel_noise_correlation` returns the midpoint `0.5`
when either channel's noise residual is near-constant
(variance below `1e-12`, i.e. standard deviation below `1e-6`) — and
whenever that guard does not fire both variances are strictly positive, so
the Pearson denominator `std(nb) * std(nr)` is nonzero and the
NaN-producing branch of `np.corrcoef` is unreachable. -/
theorem C8_spatial_extractor_defaults :
    (∀ (h w : ℕ) (bB bI : ℕ → ℕ → ℚ),
      h < 8 ∨ w < 8 → Detector.dctGridArtifact h w bB bI = 0) ∧
    (∀ (h w : ℕ) (pv : ℕ → ℕ → ℚ) (stdFn : List ℚ → ℚ),
      h ≤ 16 ∨ w ≤ 16 → Detector.localTextureEntropy h w pv stdFn = 0) ∧
    (∀ (corrFn : List ℚ → List ℚ → ℚ) (nb nr : List ℚ),
      (Verifyd.varQ nb < 1 / 10 ^ 12 ∨ Verifyd.varQ nr < 1 / 10 ^ 12 →
        Detector.colorChannelNoiseCorrelation corrFn nb nr = 1 / 2) ∧
      (¬(Verifyd.varQ nb < 1 / 10 ^ 12 ∨ Verifyd.varQ nr < 1 / 10 ^ 12) →
        0 < Verifyd.varQ nb ∧ 0 < Verifyd.varQ nr ∧
        Detector.colorChannelNoiseCorrelation corrFn nb nr = 1 - |corrFn nb nr|)) := by
  refine ⟨fun h w bB bI hsm => ?_, fun h w pv stdFn hsm => ?_, fun corrFn nb nr => ⟨fun hg => ?_, fun hg => ?_⟩⟩
  · have : h / 8 * 8 = 0 ∨ w / 8 * 8 = 0 := by
      rcases hsm with hs | hs
      · left; omega
      · right; omega
    rcases this with hz | hz <;> simp [Detector.dctGridArtifact, hz]
  · have hr : (Detector.pyRange (h - 16) 16).isEmpty = true ∨
        (Detector.pyRange (w - 16) 16).isEmpty = true := by
      rcases hsm with hs | hs
      · left
        have : h - 16 = 0 := by omega
        simp [Detector.pyRange, this]
      · right
        have : w - 16 = 0 := by omega
        simp [Detector.pyRange, this]
    rw [Detector.localTextureEntropy]
    rcases hr with hz | hz <;>
      simp_all [List.isEmpty_iff]
  · rw [Detector.colorChannelNoiseCorrelation, if_pos hg]
    norm_num
  · push_neg at hg
    refine ⟨lt_of_lt_of_le (by norm_num) hg.1, lt_of_lt_of_le (by norm_num) hg.2, ?_⟩
    rw [Detector.colorChannelNoiseCorrelation, if_neg (by push_neg; exact hg)]

/-- Witness for C8 at a 4x100 frame, a 10x50 frame, and a constant residual
vector. -/
theorem C8_spatial_extractor_defaults_witness :
    ((4:ℕ) < 8 ∨ (100:ℕ) < 8) ∧ Detector.dctGridArtifact 4 100 Inst.cB Inst.cB = 0 ∧
    ((10:ℕ) ≤ 16 ∨ (50:ℕ) ≤ 16) ∧
    Detector.localTextureEntropy 10 50 Inst.cB Inst.cStd = 0 ∧
    (Verifyd.varQ [1] < 1 / 10 ^ 12 ∨ Verifyd.varQ [2] < 1 / 10 ^ 12) ∧
    Detector.colorChannelNoiseCorrelation Inst.cCorr [1] [2] = 1 / 2 :=
  ⟨Or.inl (by decide),
   C8_spatial_extractor_defaults.1 4 100 Inst.cB Inst.cB (Or.inl (by decide)),
   Or.inl (by decide),
   C8_spatial_extractor_defaults.2.1 10 50 Inst.cB Inst.cStd (Or.inl (by decide)),
   Or.inl (by norm_num [Verifyd.varQ, Verifyd.meanQ]),
   (C8_spatial_extractor_defaults.2.2 Inst.cCorr [1] [2]).1
     (Or.inl (by norm_num [Verifyd.varQ, Verifyd.meanQ]))⟩

/-- C10 (evaluation of the code): `external_ai_score` unpacks the result of
`run_detection` into three names, but `run_detection` returns a two-element
tuple `(int(score), label)`, so the unpacking raises `ValueError` on every
input and `external_ai_score` never returns a score — it is not
extensionally equal to the primary engine on any input. -/
theorem C10_external_delegation_raises (opened : Bool) (fps : ℚ)
    (F : Detection.FrameFns2 α) (mdiff hdiff : α → α → ℚ) (v : List α) :
    External.external_ai_score opened fps F mdiff hdiff v =
      Except.error "ValueError: not enough values to unpack (expected 3, got 2)" :=
  rfl
